import Mathlib

/-
  Verification of the FaceGuard API gateway resilience layer.

  Shallow embedding of:
  - the per-service circuit breaker (middleware/circuitBreaker.ts),
  - the health aggregation cache and per-service health checks
    (routes/optimizedHealth, given as src/unnamed/part_000),
  - the response guard and circuit-breaker proxy fallback logic
    (middleware/circuitBreakerProxyFixed, given as src/unnamed/part_002).

  Asynchronous operations are embedded by passing their settled outcome
  (an Except value) explicitly; the event-loop time at each call is an
  explicit integer parameter, mirroring Date.now().
-/

namespace FaceGuard

/-! ## Circuit breaker (middleware/circuitBreaker.ts) -/

inductive CircuitState
  | closed
  | open'
  | halfOpen
deriving DecidableEq, Repr

@[simp] theorem CircuitState.closed_ne_open : CircuitState.closed ≠ CircuitState.open' := by decide

@[simp] theorem CircuitState.open_ne_closed : CircuitState.open' ≠ CircuitState.closed := by decide

@[simp] theorem CircuitState.halfOpen_ne_open : CircuitState.halfOpen ≠ CircuitState.open' := by decide

@[simp] theorem CircuitState.open_ne_halfOpen : CircuitState.open' ≠ CircuitState.halfOpen := by decide

@[simp] theorem CircuitState.closed_ne_halfOpen : CircuitState.closed ≠ CircuitState.halfOpen := by decide

@[simp] theorem CircuitState.halfOpen_ne_closed : CircuitState.halfOpen ≠ CircuitState.closed := by decide

structure CircuitBreakerConfig where
  timeout : Int
  errorThreshold : ℚ
  resetTimeout : Int
deriving DecidableEq, Repr

/-- The mutable fields of class CircuitBreaker; getStats returns exactly these. -/
structure CircuitBreakerState where
  state : CircuitState
  failureCount : Nat
  successCount : Nat
  lastFailureTime : Option Int
  lastSuccessTime : Option Int
  requestCount : Nat
deriving DecidableEq, Repr

def CircuitBreakerState.initial : CircuitBreakerState :=
  { state := .closed, failureCount := 0, successCount := 0,
    lastFailureTime := none, lastSuccessTime := none, requestCount := 0 }

/-- CircuitBreaker.onSuccess: reset failureCount, bump successCount, stamp
lastSuccessTime, and close the circuit when it was half-open. -/
def onSuccess (now : Int) (s : CircuitBreakerState) : CircuitBreakerState :=
  let s1 := { s with failureCount := 0, successCount := s.successCount + 1,
                     lastSuccessTime := some now }
  if s1.state = .halfOpen then { s1 with state := .closed } else s1

/-- CircuitBreaker.onFailure: bump failureCount, stamp lastFailureTime, and
open the circuit when failureCount is at least 5 and the failure rate
failureCount / max(requestCount, 1) * 100 reaches the configured threshold. -/
def onFailure (cfg : CircuitBreakerConfig) (now : Int) (s : CircuitBreakerState) :
    CircuitBreakerState :=
  let s1 := { s with failureCount := s.failureCount + 1, lastFailureTime := some now }
  let failureRate : ℚ := (s1.failureCount : ℚ) / (max s1.requestCount 1 : ℚ) * 100
  if 5 ≤ s1.failureCount ∧ cfg.errorThreshold ≤ failureRate then
    { s1 with state := .open' }
  else s1

/-- CircuitBreaker.shouldAttemptReset: false while lastFailureTime is unset,
otherwise true once the cooldown has elapsed. -/
def shouldAttemptReset (cfg : CircuitBreakerConfig) (now : Int)
    (s : CircuitBreakerState) : Bool :=
  match s.lastFailureTime with
  | none => false
  | some t => decide (cfg.resetTimeout ≤ now - t)

/-- Errors surfaced by CircuitBreaker.execute: either the fast-fail
CircuitBreakerOpenError or the wrapped operation re-raising its own error
(which includes losing the internal timeout race). -/
inductive ExecError (ε : Type)
  | circuitOpen (serviceName : String)
  | opFailed (e : ε)
deriving Repr

structure ExecResult (ε α : Type) where
  result : Except (ExecError ε) α
  state : CircuitBreakerState
  opInvoked : Bool
deriving Repr

/-- The try block of CircuitBreaker.execute: run the operation (already raced
against the timeout; the outcome parameter is whatever that race settles to),
then record success or failure. -/
def runOp {ε α : Type} (cfg : CircuitBreakerConfig) (now : Int)
    (s : CircuitBreakerState) (outcome : Except ε α) : ExecResult ε α :=
  match outcome with
  | .ok a => { result := .ok a, state := onSuccess now s, opInvoked := true }
  | .error e => { result := .error (.opFailed e), state := onFailure cfg now s,
                  opInvoked := true }

/-- CircuitBreaker.execute: bump requestCount; when OPEN either fast-fail with
CircuitBreakerOpenError or, after the cooldown, move to HALF_OPEN and run the
operation; otherwise run the operation. -/
def execute {ε α : Type} (cfg : CircuitBreakerConfig) (serviceName : String)
    (now : Int) (s : CircuitBreakerState) (outcome : Except ε α) : ExecResult ε α :=
  let s0 := { s with requestCount := s.requestCount + 1 }
  if s0.state = .open' then
    if shouldAttemptReset cfg now s0 then
      runOp cfg now { s0 with state := .halfOpen } outcome
    else
      { result := .error (.circuitOpen serviceName), state := s0, opInvoked := false }
  else
    runOp cfg now s0 outcome

/-- Claim C1: while the circuit is OPEN and the cooldown has not elapsed,
execute fails with CircuitBreakerOpenError, never invokes the wrapped
operation, increments requestCount exactly once, and leaves failureCount,
lastFailureTime and the OPEN state untouched (onFailure is bypassed). -/
theorem execute_open_fast_fail {ε α : Type} (cfg : CircuitBreakerConfig)
    (serviceName : String) (now t : Int) (s : CircuitBreakerState)
    (outcome : Except ε α)
    (hopen : s.state = .open') (ht : s.lastFailureTime = some t)
    (hcool : now - t < cfg.resetTimeout) :
    (execute cfg serviceName now s outcome).result =
        .error (.circuitOpen serviceName) ∧
    (execute cfg serviceName now s outcome).opInvoked = false ∧
    (execute cfg serviceName now s outcome).state.requestCount = s.requestCount + 1 ∧
    (execute cfg serviceName now s outcome).state.failureCount = s.failureCount ∧
    (execute cfg serviceName now s outcome).state.lastFailureTime = s.lastFailureTime ∧
    (execute cfg serviceName now s outcome).state.state = .open' := by
  obtain ⟨st, fc, sc, lf, ls, rc⟩ := s
  simp only at hopen ht
  subst hopen ht
  simp [execute, shouldAttemptReset, not_le.mpr hcool]

/-- Witness for execute_open_fast_fail at a concrete OPEN breaker state. -/
theorem execute_open_fast_fail_witness :
    (execute ⟨1000, 50, 30000⟩ "core" 10
        ⟨.open', 5, 0, some 0, none, 5⟩ (Except.ok 7 : Except Unit Nat)).result =
      .error (.circuitOpen "core") ∧
    (execute ⟨1000, 50, 30000⟩ "core" 10
        ⟨.open', 5, 0, some 0, none, 5⟩ (Except.ok 7 : Except Unit Nat)).opInvoked = false ∧
    (execute ⟨1000, 50, 30000⟩ "core" 10
        ⟨.open', 5, 0, some 0, none, 5⟩ (Except.ok 7 : Except Unit Nat)).state.requestCount = 5 + 1 ∧
    (execute ⟨1000, 50, 30000⟩ "core" 10
        ⟨.open', 5, 0, some 0, none, 5⟩ (Except.ok 7 : Except Unit Nat)).state.failureCount = 5 ∧
    (execute ⟨1000, 50, 30000⟩ "core" 10
        ⟨.open', 5, 0, some 0, none, 5⟩ (Except.ok 7 : Except Unit Nat)).state.lastFailureTime = some 0 ∧
    (execute ⟨1000, 50, 30000⟩ "core" 10
        ⟨.open', 5, 0, some 0, none, 5⟩ (Except.ok 7 : Except Unit Nat)).state.state = .open' :=
  execute_open_fast_fail ⟨1000, 50, 30000⟩ "core" 10 0
    ⟨.open', 5, 0, some 0, none, 5⟩ (Except.ok 7) rfl rfl (by decide)

/-- Iterated failing calls through the breaker (each wrapped operation settles
with an error), used to state property P1. -/
def failNTimes (cfg : CircuitBreakerConfig) (serviceName : String)
    (times : List Int) (s : CircuitBreakerState) : CircuitBreakerState :=
  times.foldl
    (fun st t => (execute cfg serviceName t st (Except.error () : Except Unit Unit)).state)
    s

/-- Claim C2: when the wrapped operation fails (including losing the timeout
race), execute re-raises the original error, onFailure bumps failureCount and
stamps lastFailureTime, and the state is OPEN after the call exactly when the
new failureCount is at least 5 and the failure rate reaches the threshold;
moreover 5 consecutive failures from the initial CLOSED state (failure rate
100) leave the breaker OPEN whenever the threshold is at most 100. -/
theorem execute_failure_accounting {ε α : Type} (cfg : CircuitBreakerConfig)
    (serviceName : String) (now : Int) (s : CircuitBreakerState) (e : ε)
    (t1 t2 t3 t4 t5 : Int)
    (hinv : s.state ≠ .open' ∨ shouldAttemptReset cfg now s = true) :
    (execute cfg serviceName now s (Except.error e : Except ε α)).result =
        .error (.opFailed e) ∧
    (execute cfg serviceName now s (Except.error e : Except ε α)).state.failureCount =
        s.failureCount + 1 ∧
    (execute cfg serviceName now s (Except.error e : Except ε α)).state.lastFailureTime =
        some now ∧
    ((execute cfg serviceName now s (Except.error e : Except ε α)).state.state = .open' ↔
      (5 ≤ s.failureCount + 1 ∧ cfg.errorThreshold ≤
        ((s.failureCount + 1 : Nat) : ℚ) / ((max (s.requestCount + 1) 1 : Nat) : ℚ) * 100)) ∧
    (cfg.errorThreshold ≤ 100 →
      (failNTimes cfg serviceName [t1, t2, t3, t4, t5] .initial).state = .open') := by
  obtain ⟨st, fc, sc, lf, ls, rc⟩ := s
  refine ⟨?_, ?_, ?_, ?_, ?_⟩
  case _ =>
    rcases hinv with hst | hreset
    · simp only at hst
      simp [execute, hst, runOp]
    · simp only [shouldAttemptReset] at hreset
      by_cases hst : st = CircuitState.open'
      · simp [execute, hst, shouldAttemptReset, hreset, runOp]
      · simp [execute, hst, runOp]
  case _ =>
    rcases hinv with hst | hreset
    · simp only at hst
      simp [execute, hst, runOp, onFailure]
      split <;> rfl
    · simp only [shouldAttemptReset] at hreset
      by_cases hst : st = CircuitState.open'
      · simp only [execute, hst, shouldAttemptReset, hreset, if_true, runOp, onFailure]
        split <;> rfl
      · simp [execute, hst, runOp, onFailure]
        split <;> rfl
  case _ =>
    rcases hinv with hst | hreset
    · simp only at hst
      simp [execute, hst, runOp, onFailure]
      split <;> rfl
    · simp only [shouldAttemptReset] at hreset
      by_cases hst : st = CircuitState.open'
      · simp only [execute, hst, shouldAttemptReset, hreset, if_true, runOp, onFailure]
        split <;> rfl
      · simp [execute, hst, runOp, onFailure]
        split <;> rfl
  case _ =>
    rcases hinv with hst | hreset
    · simp only at hst
      simp [execute, hst, runOp, onFailure]
      split <;> simp_all
    · simp only [shouldAttemptReset] at hreset
      by_cases hst : st = CircuitState.open'
      · subst hst
        simp [execute, shouldAttemptReset, hreset, runOp, onFailure]
        split <;> simp_all
      · simp [execute, hst, runOp, onFailure]
        split <;> simp_all
  case _ =>
    intro h
    have e1 : (execute cfg serviceName t1 CircuitBreakerState.initial
        (Except.error () : Except Unit Unit)).state = ⟨.closed, 1, 0, some t1, none, 1⟩ := by
      norm_num [execute, runOp, onFailure, shouldAttemptReset, CircuitBreakerState.initial]
    have e2 : (execute cfg serviceName t2 (⟨.closed, 1, 0, some t1, none, 1⟩ : CircuitBreakerState)
        (Except.error () : Except Unit Unit)).state = ⟨.closed, 2, 0, some t2, none, 2⟩ := by
      norm_num [execute, runOp, onFailure, shouldAttemptReset]
    have e3 : (execute cfg serviceName t3 (⟨.closed, 2, 0, some t2, none, 2⟩ : CircuitBreakerState)
        (Except.error () : Except Unit Unit)).state = ⟨.closed, 3, 0, some t3, none, 3⟩ := by
      norm_num [execute, runOp, onFailure, shouldAttemptReset]
    have e4 : (execute cfg serviceName t4 (⟨.closed, 3, 0, some t3, none, 3⟩ : CircuitBreakerState)
        (Except.error () : Except Unit Unit)).state = ⟨.closed, 4, 0, some t4, none, 4⟩ := by
      norm_num [execute, runOp, onFailure, shouldAttemptReset]
    have e5 : (execute cfg serviceName t5 (⟨.closed, 4, 0, some t4, none, 4⟩ : CircuitBreakerState)
        (Except.error () : Except Unit Unit)).state.state = .open' := by
      norm_num [execute, runOp, onFailure, shouldAttemptReset, h]
    simp only [failNTimes, List.foldl, e1, e2, e3, e4, e5]

/-- Witness for execute_failure_accounting: the fifth consecutive failure of a
CLOSED breaker with threshold 50 opens the circuit; failNTimes agrees. -/
theorem execute_failure_accounting_witness :
    (execute ⟨1000, 50, 30000⟩ "core" 1 ⟨.closed, 4, 0, some 0, none, 4⟩
        (Except.error () : Except Unit Nat)).result = .error (.opFailed ()) ∧
    (execute ⟨1000, 50, 30000⟩ "core" 1 ⟨.closed, 4, 0, some 0, none, 4⟩
        (Except.error () : Except Unit Nat)).state.failureCount = 4 + 1 ∧
    (execute ⟨1000, 50, 30000⟩ "core" 1 ⟨.closed, 4, 0, some 0, none, 4⟩
        (Except.error () : Except Unit Nat)).state.lastFailureTime = some 1 ∧
    (execute ⟨1000, 50, 30000⟩ "core" 1 ⟨.closed, 4, 0, some 0, none, 4⟩
        (Except.error () : Except Unit Nat)).state.state = .open' ∧
    (failNTimes ⟨1000, 50, 30000⟩ "core" [1, 2, 3, 4, 5] .initial).state = .open' := by
  have h := execute_failure_accounting (ε := Unit) (α := Nat) ⟨1000, 50, 30000⟩ "core" 1
      ⟨.closed, 4, 0, some 0, none, 4⟩ () 1 2 3 4 5 (Or.inl (by decide))
  exact ⟨h.1, h.2.1, h.2.2.1, h.2.2.2.1.mpr (by norm_num), h.2.2.2.2 (by norm_num)⟩

/-- Claim C3: the breaker leaves OPEN only lazily. An execute call that finds
the cooldown elapsed moves the state to HALF_OPEN and runs the operation from
there; a single success while HALF_OPEN returns the result, closes the
circuit and resets failureCount to exactly 0; a single failure while
HALF_OPEN reopens the circuit exactly when the failureCount-at-least-5 and
threshold condition holds, and in particular leaves the state HALF_OPEN
whenever the post-failure failureCount is below 5. -/
theorem execute_halfOpen_transitions {ε α : Type} (cfg : CircuitBreakerConfig)
    (serviceName : String) (now t : Int) (s s2 : CircuitBreakerState)
    (a : α) (e : ε)
    (hopen : s.state = .open') (ht : s.lastFailureTime = some t)
    (hcool : cfg.resetTimeout ≤ now - t) (h2 : s2.state = .halfOpen) :
    (∀ outcome : Except ε α, execute cfg serviceName now s outcome =
        runOp cfg now
          { s with requestCount := s.requestCount + 1, state := .halfOpen } outcome) ∧
    (∀ outcome : Except ε α,
        (execute cfg serviceName now s outcome).opInvoked = true) ∧
    ((execute cfg serviceName now s2 (Except.ok a : Except ε α)).result = .ok a ∧
     (execute cfg serviceName now s2 (Except.ok a : Except ε α)).state.state = .closed ∧
     (execute cfg serviceName now s2 (Except.ok a : Except ε α)).state.failureCount = 0) ∧
    ((execute cfg serviceName now s2 (Except.error e : Except ε α)).state.state = .open' ↔
      (5 ≤ s2.failureCount + 1 ∧ cfg.errorThreshold ≤
        ((s2.failureCount + 1 : Nat) : ℚ) / ((max (s2.requestCount + 1) 1 : Nat) : ℚ) * 100)) ∧
    ((execute cfg serviceName now s2 (Except.error e : Except ε α)).state.failureCount < 5 →
      (execute cfg serviceName now s2 (Except.error e : Except ε α)).state.state = .halfOpen) := by
  obtain ⟨st, fc, sc, lf, ls, rc⟩ := s
  obtain ⟨st2, fc2, sc2, lf2, ls2, rc2⟩ := s2
  simp only at hopen ht h2
  subst hopen ht h2
  have hreset : decide (cfg.resetTimeout ≤ now - t) = true := decide_eq_true hcool
  refine ⟨?_, ?_, ?_, ?_, ?_⟩
  case _ =>
    intro outcome
    simp [execute, shouldAttemptReset, hreset]
  case _ =>
    intro outcome
    cases outcome <;> simp [execute, shouldAttemptReset, hreset, runOp]
  case _ =>
    simp [execute, runOp, onSuccess]
  case _ =>
    simp [execute, runOp, onFailure]
    split <;> simp_all
  case _ =>
    have hfc : (execute cfg serviceName now ⟨.halfOpen, fc2, sc2, lf2, ls2, rc2⟩
        (Except.error e : Except ε α)).state.failureCount = fc2 + 1 := by
      simp [execute, runOp, onFailure]
      split <;> rfl
    intro hlt
    rw [hfc] at hlt
    simp [execute, runOp, onFailure]
    split <;> rename_i hcond
    · exact absurd hcond.1 (by omega)
    · rfl

/-- Witness for execute_halfOpen_transitions at a concrete cooled-down OPEN
breaker and a concrete HALF_OPEN breaker. -/
theorem execute_halfOpen_transitions_witness :
    (execute ⟨1000, 50, 30000⟩ "core" 30000 ⟨.open', 5, 0, some 0, none, 5⟩
        (Except.ok 7 : Except Unit Nat)).opInvoked = true ∧
    (execute ⟨1000, 50, 30000⟩ "core" 30000 ⟨.halfOpen, 2, 1, some 0, some 0, 8⟩
        (Except.ok 7 : Except Unit Nat)).state.state = .closed ∧
    (execute ⟨1000, 50, 30000⟩ "core" 30000 ⟨.halfOpen, 2, 1, some 0, some 0, 8⟩
        (Except.ok 7 : Except Unit Nat)).state.failureCount = 0 ∧
    (execute ⟨1000, 50, 30000⟩ "core" 30000 ⟨.halfOpen, 2, 1, some 0, some 0, 8⟩
        (Except.error () : Except Unit Nat)).state.state = .halfOpen := by
  have h := execute_halfOpen_transitions (ε := Unit) (α := Nat) ⟨1000, 50, 30000⟩ "core"
      30000 0 ⟨.open', 5, 0, some 0, none, 5⟩ ⟨.halfOpen, 2, 1, some 0, some 0, 8⟩ 7 ()
      rfl rfl (by decide) rfl
  exact ⟨h.2.1 _, h.2.2.1.2.1, h.2.2.1.2.2, h.2.2.2.2 (by decide)⟩

/-! ## Per-service health checks (src/unnamed/part_000) -/

inductive HealthStatus
  | healthy
  | degraded
  | unhealthy
deriving DecidableEq, Repr

/-- The HealthCheckResult shape from types/services.ts. -/
structure HealthCheckResult where
  service : String
  status : HealthStatus
  responseTime : Int
  timestamp : String
  error : Option String
deriving DecidableEq, Repr

/-- createFailedHealth: unhealthy result; a missing or zero responseTime
becomes 0 and a missing or empty error message becomes the Unknown error
text, mirroring the JavaScript falsy defaults. -/
def createFailedHealth (serviceName : String) (errorMessage : Option String)
    (responseTime : Option Int) (ts : String) : HealthCheckResult :=
  { service := serviceName, status := .unhealthy,
    responseTime :=
      match responseTime with
      | none => 0
      | some r => if r = 0 then 0 else r,
    timestamp := ts,
    error := some
      (match errorMessage with
       | none => "Unknown error"
       | some m => if m = "" then "Unknown error" else m) }

/-- The settled outcome of the bounded-time probe request issued by
performSingleHealthCheck: either a resolved HTTP status or a transport-level
failure carrying an error message. -/
inductive ProbeOutcome
  | resolved (status : Nat)
  | transportError (message : String)
deriving DecidableEq, Repr

/-- performSingleHealthCheck: a resolved probe is healthy only for status 200
and degraded otherwise; a transport failure becomes an unhealthy
createFailedHealth result; responseTime is the wall-clock span from just
before the probe to its settling in both branches. -/
def performSingleHealthCheck (serviceName : String) (startTime settleTime : Int)
    (outcome : ProbeOutcome) (ts : String) : HealthCheckResult :=
  match outcome with
  | .resolved status =>
      { service := serviceName,
        status := if status = 200 then .healthy else .degraded,
        responseTime := settleTime - startTime,
        timestamp := ts, error := none }
  | .transportError msg =>
      createFailedHealth serviceName (some msg) (some (settleTime - startTime)) ts

/-- Claim C8, counterexample: a probe that resolves with the 2xx status 204 is
classified degraded, not healthy, refuting the claim that any 2xx status is
classified healthy. -/
theorem performSingleHealthCheck_204_counterexample :
    200 ≤ 204 ∧ 204 < 300 ∧
    (performSingleHealthCheck "Core Data Service" 0 5 (.resolved 204) "t").status =
      .degraded ∧
    (performSingleHealthCheck "Core Data Service" 0 5 (.resolved 204) "t").status ≠
      .healthy := by
  decide

/-- Claim C8, amended: performSingleHealthCheck classifies a probe resolving
with status exactly 200 as healthy, a probe resolving with any other status
as degraded, and any transport-level failure as unhealthy with a populated
error message; responseTime equals the wall-clock span from just before the
probe call to just after it settles, regardless of outcome. -/
theorem performSingleHealthCheck_classification (serviceName ts : String)
    (startTime settleTime : Int) (status : Nat) (msg : String) :
    (status = 200 →
      (performSingleHealthCheck serviceName startTime settleTime
        (.resolved status) ts).status = .healthy) ∧
    (status ≠ 200 →
      (performSingleHealthCheck serviceName startTime settleTime
        (.resolved status) ts).status = .degraded) ∧
    (performSingleHealthCheck serviceName startTime settleTime
        (.resolved status) ts).responseTime = settleTime - startTime ∧
    (performSingleHealthCheck serviceName startTime settleTime
        (.transportError msg) ts).status = .unhealthy ∧
    (performSingleHealthCheck serviceName startTime settleTime
        (.transportError msg) ts).responseTime = settleTime - startTime ∧
    (msg ≠ "" →
      (performSingleHealthCheck serviceName startTime settleTime
        (.transportError msg) ts).error = some msg) ∧
    (∃ m, (performSingleHealthCheck serviceName startTime settleTime
        (.transportError msg) ts).error = some m ∧ m ≠ "") := by
  refine ⟨?_, ?_, ?_, ?_, ?_, ?_, ?_⟩
  · intro h
    simp [performSingleHealthCheck, h]
  · intro h
    simp [performSingleHealthCheck, h]
  · simp [performSingleHealthCheck]
  · simp [performSingleHealthCheck, createFailedHealth]
  · simp only [performSingleHealthCheck, createFailedHealth]
    split <;> simp_all
  · intro h
    simp [performSingleHealthCheck, createFailedHealth, h]
  · by_cases h : msg = ""
    · exact ⟨"Unknown error", by simp [performSingleHealthCheck, createFailedHealth, h], by decide⟩
    · exact ⟨msg, by simp [performSingleHealthCheck, createFailedHealth, h], h⟩

/-- Witness for performSingleHealthCheck_classification at a concrete 200
probe and a concrete refused connection. -/
theorem performSingleHealthCheck_classification_witness :
    (performSingleHealthCheck "Core Data Service" 10 25 (.resolved 200) "t").status
      = .healthy ∧
    (performSingleHealthCheck "Core Data Service" 10 25 (.resolved 200) "t").responseTime
      = 25 - 10 ∧
    (performSingleHealthCheck "Core Data Service" 10 25
        (.transportError "connect ECONNREFUSED") "t").status = .unhealthy ∧
    (performSingleHealthCheck "Core Data Service" 10 25
        (.transportError "connect ECONNREFUSED") "t").error
      = some "connect ECONNREFUSED" := by
  have h := performSingleHealthCheck_classification "Core Data Service" "t" 10 25 200
      "connect ECONNREFUSED"
  exact ⟨h.1 rfl, h.2.2.1, h.2.2.2.1, h.2.2.2.2.2.1 (by decide)⟩

/-! ## Health aggregation cache and GET /health dispatch (src/unnamed/part_000) -/

/-- The aggregated health payload (AggregatedHealthResponse without the
gateway process-statistics block, which no claim concerns). -/
structure AggregatedHealth where
  status : HealthStatus
  timestamp : String
  coreData : HealthCheckResult
  faceRecognition : HealthCheckResult
  cameraStream : HealthCheckResult
deriving DecidableEq, Repr

/-- The cached health cell stored under the aggregated key. -/
structure CachedHealth where
  data : AggregatedHealth
  timestamp : Int
  isStale : Bool
deriving DecidableEq, Repr

inductive Freshness
  | fresh
  | stale
  | live
deriving DecidableEq, Repr

/-- The cache_info annotation attached to some GET /health responses. -/
structure CacheInfo where
  servedFromCache : Bool
  ageMs : Option Int
  freshness : Freshness
deriving DecidableEq, Repr

/-- One GET /health HTTP response: status code, aggregated body, and the
optional cache_info annotation merged into the body. -/
structure HealthResponse where
  statusCode : Nat
  body : AggregatedHealth
  cacheInfo : Option CacheInfo
deriving DecidableEq, Repr

/-- What one GET /health invocation does: the response it writes, the cache
cell afterwards, whether a fire-and-forget background refresh was started,
and whether a synchronous fresh check was performed. -/
structure HealthHandlerResult where
  response : HealthResponse
  newCache : Option CachedHealth
  backgroundRefresh : Bool
  syncCheck : Bool
deriving DecidableEq, Repr

/-- HTTP code used by the handler: 200 for healthy payloads, 503 otherwise. -/
def statusCodeFor (s : HealthStatus) : Nat :=
  if s = .healthy then 200 else 503

/-- The no-cache-or-too-stale path of the handler: perform the synchronous
fresh check (its result is the freshData parameter), store it with the
current time, and return it annotated as live. -/
def liveHealthResult (now : Int) (freshData : AggregatedHealth) : HealthHandlerResult :=
  { response := { statusCode := statusCodeFor freshData.status, body := freshData,
                  cacheInfo := some ⟨false, none, .live⟩ },
    newCache := some ⟨freshData, now, false⟩,
    backgroundRefresh := false, syncCheck := true }

/-- The GET /health handler dispatch. cacheAge is now minus the cache write
time (Infinity without a cache, handled by the match); isWithinTTL is
cacheAge < cacheTtl; isStale is cacheAge > cacheTtl * 2. The fresh branch
returns the cached payload unannotated; the stale branch annotates it and
starts a background refresh; otherwise the live path runs. -/
def handleGetHealth (cacheTtl now : Int) (cache : Option CachedHealth)
    (freshData : AggregatedHealth) : HealthHandlerResult :=
  match cache with
  | some cached =>
      if now - cached.timestamp < cacheTtl then
        { response := { statusCode := statusCodeFor cached.data.status,
                        body := cached.data, cacheInfo := none },
          newCache := some cached, backgroundRefresh := false, syncCheck := false }
      else if ¬ (cacheTtl * 2 < now - cached.timestamp) then
        { response := { statusCode := statusCodeFor cached.data.status,
                        body := cached.data,
                        cacheInfo := some ⟨true, some (now - cached.timestamp), .stale⟩ },
          newCache := some cached, backgroundRefresh := true, syncCheck := false }
      else liveHealthResult now freshData
  | none => liveHealthResult now freshData

/-- refreshHealthCache: on success overwrite the cache cell with the fresh
snapshot stamped now; on failure keep the old cell. The second component is
the error surfaced to the caller of GET /health that triggered the refresh:
both the internal try-catch and the fire-and-forget catch swallow errors, so
it is always none. -/
def refreshHealthCache (now : Int) (result : Except String AggregatedHealth)
    (cache : Option CachedHealth) : Option CachedHealth × Option String :=
  match result with
  | .ok healthData => (some ⟨healthData, now, false⟩, none)
  | .error _ => (cache, none)

/-- A concrete all-healthy aggregated payload used in concrete evaluations. -/
def aggSample : AggregatedHealth :=
  { status := .healthy, timestamp := "t",
    coreData := ⟨"Core Data Service", .healthy, 5, "t", none⟩,
    faceRecognition := ⟨"Face Recognition Service", .healthy, 6, "t", none⟩,
    cameraStream := ⟨"Camera Stream Service", .healthy, 7, "t", none⟩ }

/-- Claim C4, counterexample: with cacheTtl 10 and a snapshot of age exactly
20 = 2 * cacheTtl the claim requires the synchronous-refresh path, since
isUsableStale as claimed demands ageMs strictly below 2 * cacheTtlMs, but the
code serves the cached snapshot with a background refresh and no synchronous
check. -/
theorem handleGetHealth_boundary_counterexample :
    ¬ ((20 : Int) - 0 < 2 * 10) ∧
    (handleGetHealth 10 20 (some ⟨aggSample, 0, false⟩) aggSample).syncCheck = false ∧
    (handleGetHealth 10 20 (some ⟨aggSample, 0, false⟩) aggSample).backgroundRefresh = true ∧
    (handleGetHealth 10 20 (some ⟨aggSample, 0, false⟩) aggSample).response.body = aggSample := by
  decide

/-- Claim C4, amended: the handler dispatches with isFresh as ageMs below
cacheTtlMs and isUsableStale as ageMs at most 2 * cacheTtlMs (the code keeps
serving stale at age exactly twice the TTL): a fresh snapshot is returned
with no new probe scheduled; a usable-stale snapshot is returned while
exactly one background refresh starts, whose errors are never surfaced to
that caller; otherwise a synchronous full refresh runs, is stored with write
time now, and is returned. -/
theorem handleGetHealth_dispatch (cacheTtl now : Int) (c : CachedHealth)
    (freshData : AggregatedHealth) (httl : 0 < cacheTtl) :
    (now - c.timestamp < cacheTtl →
      handleGetHealth cacheTtl now (some c) freshData =
        { response := { statusCode := statusCodeFor c.data.status, body := c.data,
                        cacheInfo := none },
          newCache := some c, backgroundRefresh := false, syncCheck := false }) ∧
    (cacheTtl ≤ now - c.timestamp → now - c.timestamp ≤ cacheTtl * 2 →
      handleGetHealth cacheTtl now (some c) freshData =
        { response := { statusCode := statusCodeFor c.data.status, body := c.data,
                        cacheInfo := some ⟨true, some (now - c.timestamp), .stale⟩ },
          newCache := some c, backgroundRefresh := true, syncCheck := false }) ∧
    (cacheTtl * 2 < now - c.timestamp →
      handleGetHealth cacheTtl now (some c) freshData = liveHealthResult now freshData) ∧
    handleGetHealth cacheTtl now none freshData = liveHealthResult now freshData ∧
    (liveHealthResult now freshData).syncCheck = true ∧
    (liveHealthResult now freshData).newCache = some ⟨freshData, now, false⟩ ∧
    (liveHealthResult now freshData).response.body = freshData ∧
    (∀ (r : Except String AggregatedHealth) (cache0 : Option CachedHealth),
      (refreshHealthCache now r cache0).2 = none) := by
  refine ⟨?_, ?_, ?_, rfl, rfl, rfl, rfl, ?_⟩
  · intro h
    simp [handleGetHealth, h]
  · intro h1 h2
    rw [handleGetHealth]
    rw [if_neg (not_lt.mpr h1), if_pos (by omega)]
  · intro h
    rw [handleGetHealth]
    rw [if_neg (by omega), if_neg (by omega)]
  · intro r cache0
    cases r <;> rfl

/-- Witness for handleGetHealth_dispatch with cacheTtl 10 at ages 5 (fresh),
15 (stale) and 25 (too stale). -/
theorem handleGetHealth_dispatch_witness :
    (handleGetHealth 10 5 (some ⟨aggSample, 0, false⟩) aggSample).syncCheck = false ∧
    (handleGetHealth 10 15 (some ⟨aggSample, 0, false⟩) aggSample).backgroundRefresh = true ∧
    (handleGetHealth 10 25 (some ⟨aggSample, 0, false⟩) aggSample).syncCheck = true ∧
    (refreshHealthCache 25 (Except.error "boom") (some ⟨aggSample, 0, false⟩)).2 = none := by
  have h5 := handleGetHealth_dispatch 10 5 ⟨aggSample, 0, false⟩ aggSample (by decide)
  have h15 := handleGetHealth_dispatch 10 15 ⟨aggSample, 0, false⟩ aggSample (by decide)
  have h25 := handleGetHealth_dispatch 10 25 ⟨aggSample, 0, false⟩ aggSample (by decide)
  refine ⟨?_, ?_, ?_, h25.2.2.2.2.2.2.2 (Except.error "boom") (some ⟨aggSample, 0, false⟩)⟩
  · rw [h5.1 (by decide)]
  · rw [h15.2.1 (by decide) (by decide)]
  · rw [h25.2.2.1 (by decide)]
    rfl

/-- Claim C9, counterexample: a GET /health response served from a fresh
cache hit carries no cache_info annotation at all, refuting the claim that
every response includes one annotated fresh. -/
theorem handleGetHealth_fresh_no_cacheInfo_counterexample :
    ((5 : Int) - 0 < 10) ∧
    (handleGetHealth 10 5 (some ⟨aggSample, 0, false⟩) aggSample).response.cacheInfo = none := by
  decide

/-- Claim C9, amended: only stale-served and live GET /health responses carry
a cache_info object (served_from_cache true with age_ms and freshness stale,
respectively served_from_cache false and freshness live); a fresh cache hit
returns the cached body with no cache_info annotation. -/
theorem handleGetHealth_cacheInfo (cacheTtl now : Int) (c : CachedHealth)
    (freshData : AggregatedHealth) (httl : 0 < cacheTtl) :
    (now - c.timestamp < cacheTtl →
      (handleGetHealth cacheTtl now (some c) freshData).response.cacheInfo = none ∧
      (handleGetHealth cacheTtl now (some c) freshData).response.body = c.data) ∧
    (cacheTtl ≤ now - c.timestamp → now - c.timestamp ≤ cacheTtl * 2 →
      (handleGetHealth cacheTtl now (some c) freshData).response.cacheInfo =
        some ⟨true, some (now - c.timestamp), .stale⟩) ∧
    (cacheTtl * 2 < now - c.timestamp →
      (handleGetHealth cacheTtl now (some c) freshData).response.cacheInfo =
        some ⟨false, none, .live⟩) ∧
    (handleGetHealth cacheTtl now none freshData).response.cacheInfo =
      some ⟨false, none, .live⟩ := by
  refine ⟨?_, ?_, ?_, rfl⟩
  · intro h
    simp [handleGetHealth, h]
  · intro h1 h2
    rw [handleGetHealth]
    rw [if_neg (not_lt.mpr h1), if_pos (by omega)]
  · intro h
    rw [handleGetHealth]
    rw [if_neg (by omega), if_neg (by omega)]
    rfl

/-- Witness for handleGetHealth_cacheInfo with cacheTtl 10 at ages 5, 15
and 25. -/
theorem handleGetHealth_cacheInfo_witness :
    (handleGetHealth 10 5 (some ⟨aggSample, 0, false⟩) aggSample).response.cacheInfo = none ∧
    (handleGetHealth 10 15 (some ⟨aggSample, 0, false⟩) aggSample).response.cacheInfo =
      some ⟨true, some 15, .stale⟩ ∧
    (handleGetHealth 10 25 (some ⟨aggSample, 0, false⟩) aggSample).response.cacheInfo =
      some ⟨false, none, .live⟩ := by
  have h5 := handleGetHealth_cacheInfo 10 5 ⟨aggSample, 0, false⟩ aggSample (by decide)
  have h15 := handleGetHealth_cacheInfo 10 15 ⟨aggSample, 0, false⟩ aggSample (by decide)
  have h25 := handleGetHealth_cacheInfo 10 25 ⟨aggSample, 0, false⟩ aggSample (by decide)
  refine ⟨(h5.1 (by decide)).1, ?_, ?_⟩
  · rw [h15.2.1 (by decide) (by decide)]
    norm_num
  · rw [h25.2.2.1 (by decide)]

/-! ## In-flight health check coalescing (src/unnamed/part_000) -/

inductive ServiceType
  | coreData
  | faceRecognition
  | cameraStream
deriving DecidableEq, Repr

/-- The ongoingHealthChecks registry together with the bookkeeping needed to
observe coalescing: ongoing maps each service key to the identity of its
pending promise, nextId mints fresh promise identities, and probeCount
counts how many underlying probes have been launched. -/
structure OngoingHealthChecks where
  ongoing : ServiceType → Option Nat
  nextId : Nat
  probeCount : Nat

/-- checkServiceHealthWithCircuitBreaker, registry part: a pending check for
the service key is joined and returned as is; otherwise a new probe is
launched, its promise registered under the key before it settles. -/
def checkServiceHealthCoalesced (st : ServiceType) (s : OngoingHealthChecks) :
    Nat × OngoingHealthChecks :=
  match s.ongoing st with
  | some p => (p, s)
  | none =>
      (s.nextId,
       { ongoing := fun u => if u = st then some s.nextId else s.ongoing u,
         nextId := s.nextId + 1,
         probeCount := s.probeCount + 1 })

/-- The finally handler attached to the registered promise: once the check
settles, with any outcome, its registry entry is removed. -/
def settleHealthCheck (st : ServiceType)
    (_outcome : Except String HealthCheckResult) (s : OngoingHealthChecks) :
    OngoingHealthChecks :=
  { s with ongoing := fun u => if u = st then none else s.ongoing u }

/-- Claim C5: with no check pending for a service, the first call launches
one probe and registers its promise before it settles; a second concurrent
call for the same service joins that promise without launching a duplicate
probe, so both callers hold the same promise and hence receive the same
result; and settling, whether with success or failure, removes the entry. -/
theorem health_check_coalescing (st : ServiceType) (s : OngoingHealthChecks)
    (h : s.ongoing st = none) :
    (checkServiceHealthCoalesced st s).2.ongoing st =
      some (checkServiceHealthCoalesced st s).1 ∧
    (checkServiceHealthCoalesced st s).2.probeCount = s.probeCount + 1 ∧
    (checkServiceHealthCoalesced st (checkServiceHealthCoalesced st s).2).1 =
      (checkServiceHealthCoalesced st s).1 ∧
    (checkServiceHealthCoalesced st (checkServiceHealthCoalesced st s).2).2 =
      (checkServiceHealthCoalesced st s).2 ∧
    (∀ outcome : Except String HealthCheckResult,
      (settleHealthCheck st outcome
        (checkServiceHealthCoalesced st (checkServiceHealthCoalesced st s).2).2).ongoing st
        = none) := by
  refine ⟨?_, ?_, ?_, ?_, ?_⟩
  · simp [checkServiceHealthCoalesced, h]
  · simp [checkServiceHealthCoalesced, h]
  · simp [checkServiceHealthCoalesced, h]
  · simp [checkServiceHealthCoalesced, h]
  · intro outcome
    simp [checkServiceHealthCoalesced, settleHealthCheck, h]

/-- Witness for health_check_coalescing on an empty registry. -/
theorem health_check_coalescing_witness :
    (checkServiceHealthCoalesced .coreData ⟨fun _ => none, 0, 0⟩).2.ongoing .coreData =
      some (checkServiceHealthCoalesced .coreData ⟨fun _ => none, 0, 0⟩).1 ∧
    (checkServiceHealthCoalesced .coreData ⟨fun _ => none, 0, 0⟩).2.probeCount = 0 + 1 ∧
    (checkServiceHealthCoalesced .coreData
        (checkServiceHealthCoalesced .coreData ⟨fun _ => none, 0, 0⟩).2).1 =
      (checkServiceHealthCoalesced .coreData ⟨fun _ => none, 0, 0⟩).1 ∧
    (settleHealthCheck .coreData (Except.error "boom")
        (checkServiceHealthCoalesced .coreData
          (checkServiceHealthCoalesced .coreData ⟨fun _ => none, 0, 0⟩).2).2).ongoing .coreData
      = none := by
  have h := health_check_coalescing .coreData ⟨fun _ => none, 0, 0⟩ rfl
  exact ⟨h.1, h.2.1, h.2.2.1, h.2.2.2.2 (Except.error "boom")⟩

/-! ## Response guard and proxy fallback (src/unnamed/part_002) -/

/-- The two flags consulted by ResponseGuard: its own responseSent flag and
the headersSent flag of the underlying response object. -/
structure ResponseGuardState where
  responseSent : Bool
  headersSent : Bool
deriving DecidableEq, Repr

/-- ResponseGuard.sendOnce: if a response was already sent through the guard
or headers already went out, skip the write and report false; otherwise mark
the guard, write the response (third component) and report true. -/
def sendOnce (g : ResponseGuardState) (statusCode : Nat) :
    Bool × ResponseGuardState × Option Nat :=
  if g.responseSent || g.headersSent then (false, g, none)
  else (true, ⟨true, true⟩, some statusCode)

/-- ResponseGuard.isResponseSent. -/
def isResponseSent (g : ResponseGuardState) : Bool :=
  g.responseSent || g.headersSent

/-- One attempt to respond to the inbound request: through the guard
(fallback and error paths) or directly on the response object guarded by a
headersSent check (the proxy onError path and the forwarded upstream
response, both of which set headersSent when they write). -/
inductive ResponseAttempt
  | viaGuard (statusCode : Nat)
  | direct (statusCode : Nat)
deriving DecidableEq, Repr

def attemptCode : ResponseAttempt → Nat
  | .viaGuard c => c
  | .direct c => c

def runAttempt (g : ResponseGuardState) : ResponseAttempt → ResponseGuardState × Option Nat
  | .viaGuard c => ((sendOnce g c).2.1, (sendOnce g c).2.2)
  | .direct c => if g.headersSent then (g, none) else (⟨g.responseSent, true⟩, some c)

/-- Run a sequence of racing response attempts, collecting the responses
actually written. -/
def runAttempts (g : ResponseGuardState) : List ResponseAttempt → ResponseGuardState × List Nat
  | [] => (g, [])
  | a :: rest =>
      ((runAttempts (runAttempt g a).1 rest).1,
       (runAttempt g a).2.toList ++ (runAttempts (runAttempt g a).1 rest).2)

theorem runAttempts_after_headers_sent (l : List ResponseAttempt)
    (g : ResponseGuardState) (h : g.headersSent = true) :
    (runAttempts g l).2 = [] := by
  induction l generalizing g with
  | nil => simp [runAttempts]
  | cons a rest ih =>
      cases a with
      | viaGuard c =>
          simp [runAttempts, runAttempt, sendOnce, h]
          exact ih g h
      | direct c =>
          simp [runAttempts, runAttempt, h]
          exact ih g h

/-- Claim C6: sendOnce writes nothing and returns false whenever a response
was already produced, including when only the underlying headersSent flag is
set by the forwarding path; and for any nonempty sequence of racing attempts
starting from a clean request context, exactly one response is written,
namely the first attempt in the sequence, so every request produces exactly
one HTTP response. -/
theorem responseGuard_exactly_one_response (g : ResponseGuardState) (c : Nat)
    (a : ResponseAttempt) (rest : List ResponseAttempt)
    (hsent : g.responseSent = true ∨ g.headersSent = true) :
    sendOnce g c = (false, g, none) ∧
    (runAttempts ⟨false, false⟩ (a :: rest)).2 = [attemptCode a] ∧
    (∀ l : List ResponseAttempt, (runAttempts ⟨false, false⟩ l).2.length ≤ 1) := by
  have hone : ∀ (a0 : ResponseAttempt) (rest0 : List ResponseAttempt),
      (runAttempts ⟨false, false⟩ (a0 :: rest0)).2 = [attemptCode a0] := by
    intro a0 rest0
    cases a0 with
    | viaGuard c0 =>
        simp [runAttempts, runAttempt, sendOnce, attemptCode]
        exact runAttempts_after_headers_sent rest0 ⟨true, true⟩ rfl
    | direct c0 =>
        simp [runAttempts, runAttempt, attemptCode]
        exact runAttempts_after_headers_sent rest0 ⟨false, true⟩ rfl
  refine ⟨?_, hone a rest, ?_⟩
  · rcases hsent with h | h <;> simp [sendOnce, h]
  · intro l
    cases l with
    | nil => simp [runAttempts]
    | cons a0 rest0 => simp [hone a0 rest0]

/-- Witness for responseGuard_exactly_one_response: a guard that already
responded refuses a second write, and three racing attempts produce exactly
the first response. -/
theorem responseGuard_exactly_one_response_witness :
    sendOnce ⟨true, false⟩ 503 = (false, ⟨true, false⟩, none) ∧
    (runAttempts ⟨false, false⟩ [.viaGuard 503, .direct 502, .viaGuard 200]).2 =
      [attemptCode (.viaGuard 503)] ∧
    (runAttempts ⟨false, false⟩ [.direct 200, .viaGuard 503]).2.length ≤ 1 := by
  have h := responseGuard_exactly_one_response ⟨true, false⟩ 503 (.viaGuard 503)
      [.direct 502, .viaGuard 200] (Or.inl rfl)
  exact ⟨h.1, h.2.1, h.2.2 [.direct 200, .viaGuard 503]⟩

/-- Whether the pattern occurs as a contiguous substring, as the JavaScript
String.includes used on request paths. -/
def includesAux (p : List Char) : List Char → Bool
  | [] => p.isEmpty
  | c :: cs => p.isPrefixOf (c :: cs) || includesAux p cs

def strIncludes (s pat : String) : Bool :=
  includesAux pat.toList s.toList

/-- determineFallbackKey: categorize the inbound path by its segments. -/
def determineFallbackKey (path : String) : String :=
  if strIncludes path "/persons" then "persons"
  else if strIncludes path "/recognize" || strIncludes path "/process" then "recognition"
  else if strIncludes path "/cameras" then "cameras"
  else "health"

/-- One canned fallback payload from the static fallbackResponses table; the
fields are the union of those appearing across the table, absent ones none. -/
structure FallbackPayload where
  error : Option String
  status : Option String
  service : Option String
  message : String
  fallback : Bool
  statusCode : Option Nat
deriving DecidableEq, Repr

def coreDataPersonsFallback : FallbackPayload :=
  { error := some "Service Temporarily Unavailable", status := none, service := none,
    message := "Core Data Service is currently down. Please try again later.",
    fallback := true, statusCode := some 503 }

def coreDataHealthFallback : FallbackPayload :=
  { error := none, status := some "unhealthy", service := some "Core Data Service",
    message := "Service circuit breaker is open", fallback := true, statusCode := none }

def faceRecognitionFallback : FallbackPayload :=
  { error := some "Recognition Service Unavailable", status := none, service := none,
    message := "Face Recognition Service is currently down. Cannot process images.",
    fallback := true, statusCode := some 503 }

def faceRecognitionHealthFallback : FallbackPayload :=
  { error := none, status := some "unhealthy", service := some "Face Recognition Service",
    message := "Service circuit breaker is open", fallback := true, statusCode := none }

def cameraStreamCamerasFallback : FallbackPayload :=
  { error := some "Camera Service Unavailable", status := none, service := none,
    message := "Camera Stream Service is currently down. Live feeds unavailable.",
    fallback := true, statusCode := some 503 }

def cameraStreamHealthFallback : FallbackPayload :=
  { error := none, status := some "unhealthy", service := some "Camera Stream Service",
    message := "Service circuit breaker is open", fallback := true, statusCode := none }

/-- The static fallbackResponses table, indexed by service and key. -/
def fallbackResponses : ServiceType → String → Option FallbackPayload
  | .coreData, "persons" => some coreDataPersonsFallback
  | .coreData, "health" => some coreDataHealthFallback
  | .faceRecognition, "recognition" => some faceRecognitionFallback
  | .faceRecognition, "health" => some faceRecognitionHealthFallback
  | .cameraStream, "cameras" => some cameraStreamCamerasFallback
  | .cameraStream, "health" => some cameraStreamHealthFallback
  | _, _ => none

/-- The per-service generic health fallback used as the default. -/
def healthFallback : ServiceType → FallbackPayload
  | .coreData => coreDataHealthFallback
  | .faceRecognition => faceRecognitionHealthFallback
  | .cameraStream => cameraStreamHealthFallback

/-- The circuit_breaker decoration added to a fallback response body. -/
structure CircuitBreakerInfo where
  state : String
  service : ServiceType
  stats : CircuitBreakerState
deriving DecidableEq, Repr

/-- The HTTP response written by the CircuitBreakerOpenError branch of the
fixed proxy middleware. -/
structure ProxyFallbackResponse where
  statusCode : Nat
  payload : FallbackPayload
  timestamp : String
  circuitBreaker : CircuitBreakerInfo
deriving DecidableEq, Repr

/-- The CircuitBreakerOpenError branch of createCircuitBreakerProxyFixed:
select the fallback by path categorization with the health payload as
default, send it with its declared statusCode or 503, decorated with a
timestamp and a circuit_breaker field holding state open, the service and
the breaker stats. -/
def circuitOpenFallbackResponse (st : ServiceType) (path ts : String)
    (stats : CircuitBreakerState) : ProxyFallbackResponse :=
  let fb := (fallbackResponses st (determineFallbackKey path)).getD (healthFallback st)
  { statusCode := fb.statusCode.getD 503, payload := fb, timestamp := ts,
    circuitBreaker := { state := "open", service := st, stats := stats } }

/-- Claim C7: on CircuitBreakerOpenError the response is the fallback payload
selected by path categorization (persons, recognition via recognize or
process, cameras, else the generic health fallback), written with its
declared statusCode or 503 by default and decorated with a timestamp and a
circuit_breaker field carrying state open, the service and the breaker
stats; in particular path /api/persons/123 against the core data service
yields the persons fallback with status 503 and circuit_breaker state open. -/
theorem circuitOpen_fallback_selection (st : ServiceType) (path ts : String)
    (stats : CircuitBreakerState) :
    (circuitOpenFallbackResponse st path ts stats).circuitBreaker = ⟨"open", st, stats⟩ ∧
    (circuitOpenFallbackResponse st path ts stats).timestamp = ts ∧
    (circuitOpenFallbackResponse st path ts stats).payload =
      (fallbackResponses st (determineFallbackKey path)).getD (healthFallback st) ∧
    (circuitOpenFallbackResponse st path ts stats).statusCode =
      ((fallbackResponses st (determineFallbackKey path)).getD
        (healthFallback st)).statusCode.getD 503 ∧
    (strIncludes path "/persons" = true → determineFallbackKey path = "persons") ∧
    (strIncludes path "/persons" = false →
      strIncludes path "/recognize" = true ∨ strIncludes path "/process" = true →
      determineFallbackKey path = "recognition") ∧
    (strIncludes path "/persons" = false → strIncludes path "/recognize" = false →
      strIncludes path "/process" = false → strIncludes path "/cameras" = true →
      determineFallbackKey path = "cameras") ∧
    (strIncludes path "/persons" = false → strIncludes path "/recognize" = false →
      strIncludes path "/process" = false → strIncludes path "/cameras" = false →
      determineFallbackKey path = "health") ∧
    (circuitOpenFallbackResponse .coreData "/api/persons/123" ts stats).payload =
      coreDataPersonsFallback ∧
    (circuitOpenFallbackResponse .coreData "/api/persons/123" ts stats).statusCode = 503 ∧
    (circuitOpenFallbackResponse .coreData "/api/persons/123" ts stats).circuitBreaker.state
      = "open" := by
  refine ⟨rfl, rfl, rfl, rfl, ?_, ?_, ?_, ?_, ?_, rfl, rfl⟩
  · intro h
    simp [determineFallbackKey, h]
  · intro h1 h2
    rcases h2 with h2 | h2 <;> simp [determineFallbackKey, h1, h2]
  · intro h1 h2 h3 h4
    simp [determineFallbackKey, h1, h2, h3, h4]
  · intro h1 h2 h3 h4
    simp [determineFallbackKey, h1, h2, h3, h4]
  · rfl

/-- Witness for circuitOpen_fallback_selection on a concrete OPEN breaker
and a path without any recognized segment. -/
theorem circuitOpen_fallback_selection_witness :
    (circuitOpenFallbackResponse .coreData "/api/persons/123" "t"
        ⟨.open', 5, 0, some 0, none, 5⟩).payload = coreDataPersonsFallback ∧
    (circuitOpenFallbackResponse .coreData "/api/persons/123" "t"
        ⟨.open', 5, 0, some 0, none, 5⟩).statusCode = 503 ∧
    determineFallbackKey "/api/unknown/7" = "health" ∧
    (circuitOpenFallbackResponse .faceRecognition "/api/unknown/7" "t"
        ⟨.open', 5, 0, some 0, none, 5⟩).statusCode = 503 := by
  have h := circuitOpen_fallback_selection .faceRecognition "/api/unknown/7" "t"
      ⟨.open', 5, 0, some 0, none, 5⟩
  refine ⟨h.2.2.2.2.2.2.2.2.1, h.2.2.2.2.2.2.2.2.2.1, ?_, ?_⟩
  · exact h.2.2.2.2.2.2.2.1 (by decide) (by decide) (by decide) (by decide)
  · rw [h.2.2.2.1]
    rfl

/-! ## Health check through the breaker never rejects (src/unnamed/part_000) -/

/-- Errors the breaker surfaces to the health-check caller: the fast-fail
CircuitBreakerOpenError (whose message names the service) or the probe
operation failing with its own message. -/
inductive BreakerCallError
  | circuitOpen (serviceName : String)
  | opError (message : String)
deriving DecidableEq, Repr

def breakerErrorMessage : BreakerCallError → String
  | .circuitOpen serviceName => "Circuit breaker is open for " ++ serviceName
  | .opError msg => msg

/-- checkServiceHealthWithCircuitBreaker, result part: the promise built from
circuitBreaker.execute with the attached catch handler, which converts any
rejection into a fulfilled createFailedHealth value. -/
def checkServiceHealthWithCircuitBreaker (serviceName ts : String)
    (execOutcome : Except BreakerCallError HealthCheckResult) :
    Except String HealthCheckResult :=
  Except.ok
    (match execOutcome with
     | .ok h => h
     | .error e => createFailedHealth serviceName (some (breakerErrorMessage e)) none ts)

/-- The per-slot handling of Promise.allSettled results inside
performConcurrentHealthCheck: a fulfilled value is used as is, a rejected
one is replaced by a createFailedHealth entry built from the reason. -/
def settledHealth (fallbackName ts : String) (r : Except String HealthCheckResult) :
    HealthCheckResult :=
  match r with
  | .ok v => v
  | .error reason => createFailedHealth fallbackName (some reason) none ts

/-- Overall status rule: healthy when all three services are healthy,
degraded when at least one is, unhealthy otherwise. -/
def overallStatus (core fr cs : HealthCheckResult) : HealthStatus :=
  if ([core, fr, cs].filter (fun s => decide (s.status = HealthStatus.healthy))).length = 3
  then .healthy
  else if 0 < ([core, fr, cs].filter (fun s => decide (s.status = HealthStatus.healthy))).length
  then .degraded
  else .unhealthy

/-- performConcurrentHealthCheck: join the three settled per-service results
fault-tolerantly and aggregate. -/
def performConcurrentHealthCheck (ts : String)
    (r1 r2 r3 : Except String HealthCheckResult) : AggregatedHealth :=
  { status := overallStatus (settledHealth "Core Data Service" ts r1)
      (settledHealth "Face Recognition Service" ts r2)
      (settledHealth "Camera Stream Service" ts r3),
    timestamp := ts,
    coreData := settledHealth "Core Data Service" ts r1,
    faceRecognition := settledHealth "Face Recognition Service" ts r2,
    cameraStream := settledHealth "Camera Stream Service" ts r3 }

/-- Claim C10: the promise built by checkServiceHealthWithCircuitBreaker
always fulfills: every error, including CircuitBreakerOpenError, becomes a
fulfilled unhealthy result with responseTime 0 carrying the message of the
error, so the rejected branch of the Promise.allSettled join is unreachable
and a single failing service never aborts the aggregate. -/
theorem checkServiceHealth_never_rejects (serviceName ts fb ts2 : String)
    (outcome : Except BreakerCallError HealthCheckResult) :
    (∃ h, checkServiceHealthWithCircuitBreaker serviceName ts outcome = .ok h) ∧
    (∀ n, breakerErrorMessage (.circuitOpen n) = "Circuit breaker is open for " ++ n) ∧
    (∀ e, outcome = .error e →
      checkServiceHealthWithCircuitBreaker serviceName ts outcome =
        .ok (createFailedHealth serviceName (some (breakerErrorMessage e)) none ts) ∧
      (createFailedHealth serviceName (some (breakerErrorMessage e)) none ts).status =
        .unhealthy ∧
      (createFailedHealth serviceName (some (breakerErrorMessage e)) none ts).responseTime
        = 0 ∧
      (breakerErrorMessage e ≠ "" →
        (createFailedHealth serviceName (some (breakerErrorMessage e)) none ts).error =
          some (breakerErrorMessage e))) ∧
    (∀ h, checkServiceHealthWithCircuitBreaker serviceName ts outcome = .ok h →
      settledHealth fb ts2 (checkServiceHealthWithCircuitBreaker serviceName ts outcome) = h) ∧
    (∀ (r2 r3 : Except String HealthCheckResult) (h : HealthCheckResult),
      checkServiceHealthWithCircuitBreaker "Core Data Service" ts outcome = .ok h →
      (performConcurrentHealthCheck ts2
        (checkServiceHealthWithCircuitBreaker "Core Data Service" ts outcome) r2 r3).coreData
        = h) := by
  refine ⟨?_, fun n => rfl, ?_, ?_, ?_⟩
  · cases outcome with
    | ok h => exact ⟨h, rfl⟩
    | error e => exact ⟨_, rfl⟩
  · intro e he
    subst he
    refine ⟨rfl, rfl, rfl, ?_⟩
    intro hne
    simp [createFailedHealth, hne]
  · intro h hh
    rw [hh]
    rfl
  · intro r2 r3 h hh
    simp only [performConcurrentHealthCheck]
    rw [hh]
    rfl

/-- Witness for checkServiceHealth_never_rejects at a concrete open-circuit
rejection. -/
theorem checkServiceHealth_never_rejects_witness :
    checkServiceHealthWithCircuitBreaker "Core Data Service" "t"
        (.error (.circuitOpen "Core Data Service")) =
      .ok (createFailedHealth "Core Data Service"
        (some (breakerErrorMessage (.circuitOpen "Core Data Service"))) none "t") ∧
    (createFailedHealth "Core Data Service"
        (some (breakerErrorMessage (.circuitOpen "Core Data Service"))) none "t").status =
      .unhealthy ∧
    (createFailedHealth "Core Data Service"
        (some (breakerErrorMessage (.circuitOpen "Core Data Service"))) none "t").responseTime
      = 0 ∧
    (createFailedHealth "Core Data Service"
        (some (breakerErrorMessage (.circuitOpen "Core Data Service"))) none "t").error =
      some (breakerErrorMessage (.circuitOpen "Core Data Service")) := by
  have h := checkServiceHealth_never_rejects "Core Data Service" "t" "fb" "t2"
      (.error (.circuitOpen "Core Data Service"))
  have h3 := h.2.2.1 (.circuitOpen "Core Data Service") rfl
  exact ⟨h3.1, h3.2.1, h3.2.2.1, h3.2.2.2 (by decide)⟩

end FaceGuard
